import Mathlib

/-!
Verification of the rtty-go client against its specification.

The definitions below are a shallow embedding of the Go source:
bytes are modelled as `Nat` (values < 256 on the wire), byte slices as
`List Nat`, machine `uint32` arithmetic with explicit `% 2^32`, and
fallible operations with `Option`/`Except`.  Effects of the runtime
environment (process lookups, file system, pipe writes, dials) are
passed in explicitly as environment records, exactly mirroring each
branch of the source.
-/

namespace Rtty

/-! ## Message type bytes (package proto) -/

def MsgTypeRegister : Nat := 0
def MsgTypeLogin : Nat := 1
def MsgTypeLogout : Nat := 2
def MsgTypeTermData : Nat := 3
def MsgTypeWinsize : Nat := 4
def MsgTypeCmd : Nat := 5
def MsgTypeHeartbeat : Nat := 6
def MsgTypeFile : Nat := 7
def MsgTypeHttp : Nat := 8
def MsgTypeAck : Nat := 9

/-- `proto.MsgTypeName`. -/
def MsgTypeName (typ : Nat) : String :=
  if typ = MsgTypeRegister then "register"
  else if typ = MsgTypeLogin then "login"
  else if typ = MsgTypeLogout then "logout"
  else if typ = MsgTypeTermData then "termdata"
  else if typ = MsgTypeWinsize then "winsize"
  else if typ = MsgTypeCmd then "cmd"
  else if typ = MsgTypeHeartbeat then "heartbeat"
  else if typ = MsgTypeFile then "file"
  else if typ = MsgTypeHttp then "http"
  else if typ = MsgTypeAck then "ack"
  else "unknown(" ++ toString typ ++ ")"

/-- `proto.minimumMsgLensRtty`: the client-role per-type minimum payload
lengths used by the frame reader. -/
def minimumMsgLensRtty (typ : Nat) : Option Nat :=
  if typ = MsgTypeRegister then some 1
  else if typ = MsgTypeLogin then some 32
  else if typ = MsgTypeLogout then some 32
  else if typ = MsgTypeTermData then some 33
  else if typ = MsgTypeWinsize then some 36
  else if typ = MsgTypeFile then some 33
  else if typ = MsgTypeAck then some 34
  else if typ = MsgTypeHttp then some 26
  else none

namespace MsgReaderWriter

/-- `proto.MsgReaderWriter.Write` invoked with a single byte-slice payload:
the frame is one type byte, two big-endian length bytes, then the payload.
If the total payload length exceeds 0xffff the writer returns an error
before anything is written to the connection (modelled by `none`). -/
def Write (typ : Nat) (payload : List Nat) : Option (List Nat) :=
  if payload.length > 0xffff then none
  else some (typ :: payload.length / 256 :: payload.length % 256 :: payload)

/-- The error message built by `proto.MsgReaderWriter.Read` for a frame
shorter than the per-type minimum. -/
def lengthError (typ fixedMsgLen msgLen : Nat) : String :=
  "invalid message length for " ++ MsgTypeName typ ++ ": at least " ++
    toString fixedMsgLen ++ ", got " ++ toString msgLen

/-- `proto.MsgReaderWriter.Read` for the client role: read the 3-byte head,
check the declared length against `minimumMsgLensRtty`, then read exactly
`msgLen` payload bytes. -/
def Read (stream : List Nat) : Except String (Nat × List Nat) :=
  match stream with
  | typ :: h1 :: h2 :: rest =>
    let msgLen := h1 * 256 + h2
    match minimumMsgLensRtty typ with
    | some fixedMsgLen =>
      if msgLen < fixedMsgLen then .error (lengthError typ fixedMsgLen msgLen)
      else if rest.length < msgLen then .error "unexpected EOF"
      else .ok (typ, rest.take msgLen)
    | none =>
      if rest.length < msgLen then .error "unexpected EOF"
      else .ok (typ, rest.take msgLen)
  | _ => .error "unexpected EOF"

end MsgReaderWriter

/-- `true` iff an `Except` value is a success. -/
def exceptOk {ε α : Type} : Except ε α → Bool
  | .ok _ => true
  | .error _ => false

/-! ## Login handling (rtty.go `handleLoginMsg`) -/

/-- `rttyTermLimit` from rtty.go. -/
def rttyTermLimit : Nat := 10

/-- The client state touched by the login handler: the TTY counter and
the `sessions` map (modelled by its list of stored sids). -/
structure LoginState where
  ntty : Nat
  sessions : List String
deriving DecidableEq

/-- Result of one `handleLoginMsg` invocation: the new client state,
whether `NewTerminal` was invoked (a PTY spawn was attempted), and the
`Login(sid, retCode)` reply written back. -/
structure LoginResult where
  state : LoginState
  spawnAttempted : Bool
  reply : String × Nat
deriving DecidableEq

/-- rtty.go `handleLoginMsg`: at the TTY limit reply retCode 1 without
spawning; otherwise attempt a PTY spawn (outcome `spawnOk` supplied by
the environment); on success store the session and increment `ntty`,
on failure reply retCode 1 leaving the state unchanged. -/
def handleLoginMsg (st : LoginState) (sid : String) (spawnOk : Bool) : LoginResult :=
  if st.ntty = rttyTermLimit then
    { state := st, spawnAttempted := false, reply := (sid, 1) }
  else if spawnOk then
    { state := { ntty := st.ntty + 1, sessions := sid :: st.sessions },
      spawnAttempted := true, reply := (sid, 0) }
  else
    { state := st, spawnAttempted := true, reply := (sid, 1) }

/-- The client state at startup: no TTYs, no sessions. -/
def loginInit : LoginState := { ntty := 0, sessions := [] }

/-- Fold a sequence of Login messages (each with its spawn outcome)
through `handleLoginMsg`. -/
def loginRun (evs : List (String × Bool)) : LoginState :=
  evs.foldl (fun st e => (handleLoginMsg st e.1 e.2).state) loginInit

/-! ## Terminal flow control (terminal_unix.go `WaitAck` / `Ack`) -/

namespace Terminal

/-- `ack_block` as set by `NewTerminal`. -/
def ack_block : Int := 4096

/-- The per-terminal unacked-bytes counter (`wait_ack`, an `int32`;
values stay far from the 32-bit bounds, so it is modelled as `Int`). -/
structure Flow where
  wait_ack : Int
deriving DecidableEq

/-- `Terminal.WaitAck`: add `n` to the counter; the caller then blocks
iff the new value exceeds `ack_block`.  Returns the new counter state
and whether the caller blocks. -/
def WaitAck (t : Flow) (n : Nat) : Flow × Bool :=
  let newWaitAck := t.wait_ack + n
  ({ wait_ack := newWaitAck }, decide (newWaitAck > ack_block))

/-- `Terminal.Ack`: subtract `n` from the counter and signal exactly one
blocked waiter (`cond.Signal`).  Returns the new state and the number of
waiters woken by the signal call. -/
def Ack (t : Flow) (n : Nat) : Flow × Nat :=
  ({ wait_ack := t.wait_ack - n }, 1)

/-- The wait-loop guard in `WaitAck` is `wait_ack.Load() > ack_block`;
a (potential) waiter is unblocked exactly when the guard is false. -/
def unblocked (t : Flow) : Prop := t.wait_ack ≤ ack_block

instance (t : Flow) : Decidable (unblocked t) := by
  unfold unblocked; infer_instance

/-- One step of an interleaving of `WaitAck` and `Ack` calls. -/
inductive FlowEvent where
  | waitAck (n : Nat)
  | ack (m : Nat)
deriving DecidableEq

def flowStep (t : Flow) : FlowEvent → Flow
  | .waitAck n => (WaitAck t n).1
  | .ack m => (Ack t m).1

/-- Run an interleaving from the initial zero counter. -/
def flowRun (es : List FlowEvent) : Flow :=
  es.foldl flowStep { wait_ack := 0 }

/-- The running sum of unacked bytes over an interleaving. -/
def flowSum (es : List FlowEvent) : Int :=
  es.foldl (fun s e => match e with | .waitAck n => s + n | .ack m => s - m) 0

end Terminal

/-! ## File-transfer engine (file_unix.go) -/

def MsgTypeFileSend : Nat := 0
def MsgTypeFileRecv : Nat := 1
def MsgTypeFileInfo : Nat := 2
def MsgTypeFileData : Nat := 3
def MsgTypeFileAck : Nat := 4
def MsgTypeFileAbort : Nat := 5

def MsgTypeFileCtlRequestAccept : Nat := 0
def MsgTypeFileCtlProgress : Nat := 1
def MsgTypeFileCtlInfo : Nat := 2
def MsgTypeFileCtlBusy : Nat := 3
def MsgTypeFileCtlAbort : Nat := 4
def MsgTypeFileCtlNoSpace : Nat := 5
def MsgTypeFileCtlErrExist : Nat := 6
def MsgTypeFileCtlErr : Nat := 7

/-- `uint32` truncation. -/
def u32 (n : Nat) : Nat := n % 4294967296

/-- `uint32` subtraction `a - b` with wraparound. -/
def u32sub (a b : Nat) : Nat := (u32 a + (4294967296 - u32 b)) % 4294967296

/-- 4-byte native-endian encoding (little-endian target), as written by
`binary.NativeEndian.PutUint32`. -/
def le32 (n : Nat) : List Nat :=
  [n % 256, n / 256 % 256, n / 65536 % 256, n / 16777216 % 256]

/-- 4-byte big-endian decode of the first four bytes of a slice, as read
by `binary.BigEndian.Uint32`. -/
def be32get (l : List Nat) : Nat :=
  l.getD 0 0 * 16777216 + l.getD 1 0 * 65536 + l.getD 2 0 * 256 + l.getD 3 0

/-- Native-endian (little-endian) decode of bytes at offset `i`. -/
def le32get (l : List Nat) (i : Nat) : Nat :=
  l.getD i 0 + l.getD (i + 1) 0 * 256 + l.getD (i + 2) 0 * 65536 +
    l.getD (i + 3) 0 * 16777216

/-- `filepath.Base` for the paths exercised here: the suffix after the
last separator byte 47.  (The empty-path and trailing-separator special
cases of `filepath.Base` are not reachable from `/proc/<pid>/fd` links.) -/
def pathBase (p : List Nat) : List Nat :=
  (p.reverse.takeWhile (fun c => c ≠ 47)).reverse

/-- An observable effect of the file/terminal/http handlers: a control
message written to the helper FIFO (129-byte frame `typ` + zero-padded
value, recorded here as type and value), a File-type wire frame
`sid | subtype | data`, a TermData wire frame, an Http wire frame
`key | data`, or a `SIGTERM` sent to a helper pid. -/
inductive Out where
  | fifoCtl (typ : Nat) (data : List Nat)
  | wireFile (subtype : Nat) (data : List Nat)
  | wireTermData (data : List Nat)
  | wireHttp (key : List Nat) (data : List Nat)
  | kill (pid : Nat)
deriving DecidableEq

/-- `RttyFileContext`: the per-session file-transfer state.  `file` holds
the open download-target / upload-source file (its written content for a
download, `some []` for an upload source); `fifo` the open write end of
the helper FIFO (identified by the helper pid). -/
structure FileCtx where
  file : Option (List Nat)
  fifo : Option Nat
  busy : Bool
  uid : Nat
  gid : Nat
  totalSize : Nat
  remainSize : Nat
  savepath : List Nat
deriving DecidableEq

/-- A freshly created `RttyFileContext` (zero value). -/
def fcInit : FileCtx :=
  { file := none, fifo := none, busy := false, uid := 0, gid := 0,
    totalSize := 0, remainSize := 0, savepath := [] }

/-- `RttyFileContext.sendControlMsg`: write the 129-byte control frame to
the FIFO.  Nothing is delivered when the fifo handle is nil (the nil
`*os.File` write fails) or when the write itself fails (`ok = false`).
Returns the delivered messages. -/
def sendCtl (ctx : FileCtx) (ok : Bool) (typ : Nat) (data : List Nat) : List Out :=
  match ctx.fifo with
  | some _ => if ok then [.fifoCtl typ data] else []
  | none => []

/-- Whether `sendControlMsg` returned nil (success). -/
def sendCtlOk (ctx : FileCtx) (ok : Bool) : Bool :=
  ctx.fifo.isSome && ok

/-- `RttyFileContext.reset`: close both nullable handles and clear busy. -/
def FileCtx.reset (ctx : FileCtx) : FileCtx :=
  { ctx with file := none, fifo := none, busy := false }

/-- `RttyFileContext.notifyProgress`: send a Progress control message
carrying the native-endian current `remainSize`. -/
def notifyProgress (ctx : FileCtx) (ok : Bool) : List Out × Bool :=
  (sendCtl ctx ok MsgTypeFileCtlProgress (le32 ctx.remainSize), sendCtlOk ctx ok)

/-- Environment outcomes consulted by `RttyFileContext.detect`:
process-table lookups, the FIFO open, FIFO writes, the `/proc` fd
readlink, and the upload-source open (with the size its stat reports). -/
structure DetectEnv where
  uidResult : Option Nat
  gidResult : Option Nat
  fifoOpenOk : Bool
  fifoWriteOk : Bool
  cwdResult : Option (List Nat)
  readlinkResult : Option (List Nat)
  uploadOpenOk : Bool
  uploadSize : Nat
deriving DecidableEq

/-- `RttyFileContext.detect` (file_unix.go): inspect a PTY write.  A
buffer is a file-operation initiation iff its length is exactly 12 and
its first three bytes are `B6 BC BD`; every such buffer is consumed
(result `true`) on every subsequent path.  Returns (consumed, new
context, observable effects). -/
def FileCtx.detect (ctx : FileCtx) (env : DetectEnv) (data : List Nat) :
    Bool × FileCtx × List Out :=
  if data.length ≠ 12 then (false, ctx, [])
  else if data.getD 0 0 ≠ 0xb6 ∨ data.getD 1 0 ≠ 0xbc ∨ data.getD 2 0 ≠ 0xbd then
    (false, ctx, [])
  else
    let pid := le32get data 4
    match env.uidResult with
    | none => (true, ctx, [.kill pid])
    | some uid =>
      match env.gidResult with
      | none => (true, ctx, [.kill pid])
      | some gid =>
        if env.fifoOpenOk = false then (true, ctx, [.kill pid])
        else
          let ctx1 := { ctx with fifo := some pid }
          if ctx1.busy then
            (true, ctx1, sendCtl ctx1 env.fifoWriteOk MsgTypeFileCtlBusy [])
          else if data.getD 3 0 = 82 then
            match env.cwdResult with
            | none => (true, ctx1, sendCtl ctx1 env.fifoWriteOk MsgTypeFileCtlErr [])
            | some cwd =>
              (true,
               { ctx1 with savepath := cwd, uid := uid, gid := gid, busy := true },
               [.wireFile MsgTypeFileRecv []] ++
                 sendCtl ctx1 env.fifoWriteOk MsgTypeFileCtlRequestAccept [])
          else
            match env.readlinkResult with
            | none => (true, ctx1, sendCtl ctx1 env.fifoWriteOk MsgTypeFileCtlErr [])
            | some path =>
              if env.uploadOpenOk = false then
                (true, ctx1,
                 sendCtl ctx1 env.fifoWriteOk MsgTypeFileCtlRequestAccept [] ++
                   sendCtl ctx1 env.fifoWriteOk MsgTypeFileCtlErr [])
              else
                (true,
                 { ctx1 with file := some [], totalSize := env.uploadSize,
                             remainSize := env.uploadSize, busy := true },
                 sendCtl ctx1 env.fifoWriteOk MsgTypeFileCtlRequestAccept [] ++
                   [.wireFile MsgTypeFileSend (pathBase path)])

/-- `TermSession.Write` (rtty.go): the PTY-to-broker path.  If `detect`
consumes the buffer, return; otherwise send a TermData frame carrying
the sid followed by the bytes verbatim (then `WaitAck`, modelled in the
flow-control section). -/
def TermSession.Write (ctx : FileCtx) (env : DetectEnv) (sid buf : List Nat) :
    FileCtx × List Out :=
  match FileCtx.detect ctx env buf with
  | (true, ctx2, outs) => (ctx2, outs)
  | (false, ctx2, outs) => (ctx2, outs ++ [.wireTermData (sid ++ buf)])

/-- Environment outcomes consulted by `RttyFileContext.startDownload`:
the free-space check, the target-exists check, the target open, and
FIFO write health. -/
structure InfoEnv where
  spaceOk : Bool
  targetExists : Bool
  openOk : Bool
  fifoWriteOk : Bool
deriving DecidableEq

/-- `RttyFileContext.startDownload` (on a FileInfo subtype): record the
big-endian total size, verify disk space, refuse overwrite, create the
target file (kept open only when the total size is nonzero), and echo an
Info control message with the native-endian size and filename. -/
def FileCtx.startDownload (ctx : FileCtx) (env : InfoEnv) (data : List Nat) :
    FileCtx × List Out :=
  let t := be32get data
  let ctx1 := { ctx with totalSize := t, remainSize := t }
  if env.spaceOk = false then
    (ctx1.reset, sendCtl ctx1 env.fifoWriteOk MsgTypeFileCtlNoSpace [])
  else
    let name := data.drop 4
    let ctx2 := { ctx1 with savepath := ctx1.savepath ++ [47] ++ name }
    if env.targetExists then
      (ctx2.reset, sendCtl ctx2 env.fifoWriteOk MsgTypeFileCtlErrExist [])
    else if env.openOk = false then
      (ctx2.reset, sendCtl ctx2 env.fifoWriteOk MsgTypeFileCtlErr [])
    else
      let ctx3 := if t = 0 then ctx2 else { ctx2 with file := some [] }
      (ctx3, sendCtl ctx3 env.fifoWriteOk MsgTypeFileCtlInfo (le32 t ++ name))

/-- The FileData branch of `handleFileMsg`: with a non-empty payload and
an open file, append, decrement `remainSize` (uint32), notify progress;
on progress failure reset, else reset when the transfer completed,
else reply FileAck on the wire.  An empty payload resets. -/
def handleFileData (ctx : FileCtx) (fifoWriteOk : Bool) (payload : List Nat) :
    FileCtx × List Out :=
  if payload.length > 0 then
    match ctx.file with
    | none => (ctx, [])
    | some contents =>
      let remain := u32sub ctx.remainSize payload.length
      let ctx1 := { ctx with file := some (contents ++ payload), remainSize := remain }
      let p := notifyProgress ctx1 fifoWriteOk
      if p.2 = false then (ctx1.reset, p.1)
      else if remain = 0 then (ctx1.reset, p.1)
      else (ctx1, p.1 ++ [.wireFile MsgTypeFileAck []])
  else (ctx.reset, [])

/-- Environment outcomes consulted by `RttyFileContext.sendData`: the
source-file read (`readErr` for a non-EOF error, else the chunk read,
empty at EOF) and FIFO write health. -/
structure SendEnv where
  readErr : Bool
  chunk : List Nat
  fifoWriteOk : Bool
deriving DecidableEq

/-- `RttyFileContext.sendData` (on a FileAck subtype): read up to 63 KiB
of the source, emit one FileData frame; EOF (zero-length read) emits a
final zero-byte FileData and resets; a read error sends a wire FileAbort
and a FIFO Err and resets; a progress-notification failure sends a wire
FileAbort and resets. -/
def FileCtx.sendData (ctx : FileCtx) (env : SendEnv) : FileCtx × List Out :=
  match ctx.file with
  | none => (ctx, [])
  | some _ =>
    if env.readErr then
      (ctx.reset, [.wireFile MsgTypeFileAbort []] ++
        sendCtl ctx env.fifoWriteOk MsgTypeFileCtlErr [])
    else
      let n := env.chunk.length
      let ctx1 := { ctx with remainSize := u32sub ctx.remainSize n }
      if n = 0 then
        (ctx1.reset, [.wireFile MsgTypeFileData []])
      else
        let p := notifyProgress ctx1 env.fifoWriteOk
        if p.2 then (ctx1, [.wireFile MsgTypeFileData env.chunk] ++ p.1)
        else (ctx1.reset,
          [.wireFile MsgTypeFileData env.chunk] ++ [.wireFile MsgTypeFileAbort []])

/-- The events that can touch a session's `RttyFileContext` between two
of its own occurrences: a PTY write (magic detection), the four File
subtypes dispatched by `handleFileMsg`, and the client-close reset. -/
inductive FcEvent where
  | write (env : DetectEnv) (sid buf : List Nat)
  | info (env : InfoEnv) (payload : List Nat)
  | fdata (fifoWriteOk : Bool) (payload : List Nat)
  | fack (env : SendEnv)
  | fabort (fifoWriteOk : Bool)
  | close
deriving DecidableEq

/-- One event's effect on the FileContext. -/
def fcStep (ctx : FileCtx) : FcEvent → FileCtx × List Out
  | .write env sid buf => TermSession.Write ctx env sid buf
  | .info env p => ctx.startDownload env p
  | .fdata ok p => handleFileData ctx ok p
  | .fack env => ctx.sendData env
  | .fabort ok => (ctx.reset, sendCtl ctx ok MsgTypeFileCtlAbort [])
  | .close => (ctx.reset, [])

/-- Run a history of events from the freshly created context. -/
def fcRun (es : List FcEvent) : FileCtx :=
  es.foldl (fun c e => (fcStep c e).1) fcInit

/-- The claim's handle predicate: exactly one of the two nullable
handles is non-null. -/
def exactlyOneHandle (ctx : FileCtx) : Bool :=
  xor ctx.file.isSome ctx.fifo.isSome

/-! ## HTTP tunnel (http.go) -/

/-- `handleHttpMsg` combined with the dial phase of `RttyHttpConn.run`
for a frame `tls(1) | key(18) | ipv4(4) | port(2) | payload`.  The state
is the set of keys stored in `httpCons`.  An empty payload is dropped; a
known key enqueues to the existing tunnel; a fresh key is stored
(`LoadOrStore`) and its goroutine dials the target.  On dial failure the
goroutine sends an empty Http frame with the same key and returns —
before the deferred `httpCons.Delete` is ever registered, so the stored
key stays in the map.  On dial success the tunnel relay continues out of
band. -/
def handleHttpMsg (cons : List (List Nat)) (data : List Nat) (dialOk : Bool) :
    List (List Nat) × List Out :=
  let saddr := (data.drop 1).take 18
  let payload := data.drop 25
  if payload.length = 0 then (cons, [])
  else if saddr ∈ cons then (cons, [])
  else
    let cons1 := saddr :: cons
    if dialOk = false then (cons1, [.wireHttp saddr []])
    else (cons1, [])

/-! ## Dispatch loop (rtty.go `Run`) -/

/-- The sessions map as seen by the sid-bearing handlers. -/
structure DispatchState where
  sessions : List (List Nat)
deriving DecidableEq

/-- Environment outcome for the Winsize handler's `SetWinSize` ioctl. -/
structure DispatchEnv where
  resizeOk : Bool
deriving DecidableEq

/-- The error returned by `handleTermWinsizeMsg`: session not found is
logged and dropped (nil); a failed `SetWinSize` is returned to `Run`. -/
def handleTermWinsizeMsgErr (st : DispatchState) (data : List Nat)
    (env : DispatchEnv) : Option String :=
  if data.take 32 ∈ st.sessions then
    if env.resizeOk then none else some "failed to set terminal size"
  else none

/-- Whether a type byte is a key of rtty.go's `msgHandlers` table
(all types except Register). -/
def msgHandlerKnown (typ : Nat) : Bool :=
  typ = MsgTypeHeartbeat ∨ typ = MsgTypeLogin ∨ typ = MsgTypeLogout ∨
    typ = MsgTypeTermData ∨ typ = MsgTypeWinsize ∨ typ = MsgTypeAck ∨
    typ = MsgTypeFile ∨ typ = MsgTypeCmd ∨ typ = MsgTypeHttp

/-- The error value a dispatched handler returns to `Run`.  Every
handler other than `handleTermWinsizeMsg` ends each of its paths with
`return nil`. -/
def handlerError (typ : Nat) (st : DispatchState) (data : List Nat)
    (env : DispatchEnv) : Option String :=
  if typ = MsgTypeWinsize then handleTermWinsizeMsgErr st data env else none

/-- One iteration of the dispatch loop after a successful frame read:
`true` iff the loop continues.  The loop returns (exits) when the type
is missing from `msgHandlers` or when the handler returns an error. -/
def dispatchContinue (typ : Nat) (st : DispatchState) (data : List Nat)
    (env : DispatchEnv) : Bool :=
  if msgHandlerKnown typ then (handlerError typ st data env).isNone else false

/-! ## Concrete sample inputs used by witnesses and counterexamples -/

/-- The magic-head predicate of the claims: the first three bytes of the
buffer are `B6 BC BD`. -/
def isMagic (buf : List Nat) : Prop :=
  buf.getD 0 0 = 0xb6 ∧ buf.getD 1 0 = 0xbc ∧ buf.getD 2 0 = 0xbd

instance (buf : List Nat) : Decidable (isMagic buf) := by
  unfold isMagic; infer_instance

/-- A detection environment in which every external step succeeds. -/
def envAllOk : DetectEnv :=
  { uidResult := some 0, gidResult := some 0, fifoOpenOk := true,
    fifoWriteOk := true, cwdResult := some [], readlinkResult := some [97],
    uploadOpenOk := true, uploadSize := 3 }

/-- A 12-byte magic buffer for an upload (`'S'` = 83), pid 9. -/
def bufS : List Nat := [182, 188, 189, 83, 9, 0, 0, 0, 5, 0, 0, 0]

/-- A 12-byte magic buffer for a download (`'R'` = 82), pid 9. -/
def bufR : List Nat := [182, 188, 189, 82, 9, 0, 0, 0, 0, 0, 0, 0]

/-- A FileContext mid-download: target file open and empty, FIFO open,
busy, 5 bytes still expected. -/
def ctxD : FileCtx :=
  { fcInit with file := some [], fifo := some 1, busy := true,
                totalSize := 5, remainSize := 5 }

/-- An 18-byte source key. -/
def k8 : List Nat := [1, 2, 3, 4, 5, 6, 7, 8, 9, 10, 11, 12, 13, 14, 15, 16, 17, 18]

/-- An Http frame payload: tls=0, key `k8`, target 127.0.0.1:65000,
one body byte. -/
def httpFrame8 : List Nat := 0 :: (k8 ++ [127, 0, 0, 1, 253, 232, 42])

/-- A 32-byte sid (32 times `'a'`). -/
def sid0 : List Nat := List.replicate 32 97

/-- A dispatch state holding the single session `sid0`. -/
def st0 : DispatchState := { sessions := [sid0] }

/-- A Winsize frame payload for `sid0` with cols=80, rows=24. -/
def data0 : List Nat := sid0 ++ [0, 80, 0, 24]

/-- An environment in which the `SetWinSize` ioctl fails. -/
def envNoResize : DispatchEnv := { resizeOk := false }

/-! # Theorems -/

/-- C1 (counterexample): the round trip fails for a pair allowed by the
claim.  Writing `(Login, [])` succeeds and produces the frame
`[Login, 0, 0]`, but reading that frame back fails, because the reader
enforces the per-type minimum payload length (32 for Login). -/
theorem write_read_no_roundtrip_login_empty :
    MsgReaderWriter.Write MsgTypeLogin [] = some [MsgTypeLogin, 0, 0] ∧
    exceptOk (MsgReaderWriter.Read [MsgTypeLogin, 0, 0]) = false := by
  decide

/-- C1 (amended): for every type byte and payload of length at most
65535 that also meets the type's minimum payload length (types absent
from the minimum table are unconstrained), writing then reading yields
exactly the original pair; and for every payload longer than 65535 the
writer returns an error and emits no frame. -/
theorem frame_roundtrip (typ : Nat) (payload : List Nat) :
    (payload.length ≤ 65535 →
      (∀ m, minimumMsgLensRtty typ = some m → m ≤ payload.length) →
      MsgReaderWriter.Write typ payload =
        some (typ :: payload.length / 256 :: payload.length % 256 :: payload) ∧
      MsgReaderWriter.Read
          (typ :: payload.length / 256 :: payload.length % 256 :: payload) =
        .ok (typ, payload)) ∧
    (payload.length > 65535 → MsgReaderWriter.Write typ payload = none) := by
  constructor
  · intro hle hmin
    have hms : payload.length / 256 * 256 + payload.length % 256 = payload.length := by
      omega
    constructor
    · unfold MsgReaderWriter.Write
      rw [if_neg (by omega)]
    · unfold MsgReaderWriter.Read
      simp only [hms]
      cases h : minimumMsgLensRtty typ with
      | none => simp
      | some m =>
        have hm := hmin m h
        have h1 : ¬ (payload.length < m) := by omega
        simp [h1]
  · intro hgt
    unfold MsgReaderWriter.Write
    rw [if_pos (by omega)]

/-- C1 witness: the round trip at the concrete pair
`(TermData, 33 bytes of 7)`. -/
theorem frame_roundtrip_witness :
    MsgReaderWriter.Write MsgTypeTermData (List.replicate 33 7) =
      some (MsgTypeTermData :: (List.replicate 33 7).length / 256 ::
        (List.replicate 33 7).length % 256 :: List.replicate 33 7) ∧
    MsgReaderWriter.Read (MsgTypeTermData :: (List.replicate 33 7).length / 256 ::
        (List.replicate 33 7).length % 256 :: List.replicate 33 7) =
      .ok (MsgTypeTermData, List.replicate 33 7) :=
  (frame_roundtrip MsgTypeTermData (List.replicate 33 7)).1 (by decide)
    (by
      intro m hm
      have hv : minimumMsgLensRtty MsgTypeTermData = some 33 := by decide
      rw [hv] at hm
      have h33 : 33 = m := Option.some_inj.mp hm
      subst h33
      decide)

/-- C2 (confirmed): the client-role minimum-length table is exactly
Register 1, Login 32, Logout 32, TermData 33, Winsize 36, File 33,
Ack 34, Http 26; and for every type in the table, a frame whose declared
payload length is below the type's minimum makes the reader fail with
the descriptive length error, returning no payload. -/
theorem length_enforcement :
    (minimumMsgLensRtty MsgTypeRegister = some 1 ∧
     minimumMsgLensRtty MsgTypeLogin = some 32 ∧
     minimumMsgLensRtty MsgTypeLogout = some 32 ∧
     minimumMsgLensRtty MsgTypeTermData = some 33 ∧
     minimumMsgLensRtty MsgTypeWinsize = some 36 ∧
     minimumMsgLensRtty MsgTypeFile = some 33 ∧
     minimumMsgLensRtty MsgTypeAck = some 34 ∧
     minimumMsgLensRtty MsgTypeHttp = some 26) ∧
    ∀ typ m h1 h2 rest, minimumMsgLensRtty typ = some m → h1 * 256 + h2 < m →
      MsgReaderWriter.Read (typ :: h1 :: h2 :: rest) =
        .error (MsgReaderWriter.lengthError typ m (h1 * 256 + h2)) := by
  refine ⟨by decide, ?_⟩
  intro typ m h1 h2 rest hm hlt
  unfold MsgReaderWriter.Read
  simp only [hm]
  rw [if_pos hlt]

/-- C2 witness: a Login frame with declared length 5 (< 32) is rejected
with the descriptive error. -/
theorem length_enforcement_witness :
    MsgReaderWriter.Read (MsgTypeLogin :: 0 :: 5 :: []) =
      .error (MsgReaderWriter.lengthError MsgTypeLogin 32 (0 * 256 + 5)) :=
  length_enforcement.2 MsgTypeLogin 32 0 5 [] (by decide) (by decide)

/-- Helper for C3: one Login step from a state within the cap stays
within the cap, whatever the spawn outcome. -/
theorem handleLoginMsg_ntty_le (st : LoginState) (sid : String) (spawnOk : Bool)
    (h : st.ntty ≤ rttyTermLimit) :
    (handleLoginMsg st sid spawnOk).state.ntty ≤ rttyTermLimit := by
  unfold handleLoginMsg
  by_cases h10 : st.ntty = rttyTermLimit
  · rw [if_pos h10]; exact h
  · rw [if_neg h10]
    unfold rttyTermLimit at h h10 ⊢
    cases spawnOk <;> simp <;> omega

/-- C3 (confirmed): at the cap of 10 active TTYs a Login replies
`(sid, retCode=1)`, attempts no PTY spawn and leaves the state (counter
and sessions) unchanged; after any Login handler invocation — including
one whose PTY spawn fails — a counter that was at most 10 is still at
most 10; and over every sequence of Login messages from startup, with
arbitrary spawn outcomes, the counter stays at most 10. -/
theorem login_cap (st : LoginState) (sid : String) (spawnOk : Bool) :
    (st.ntty = rttyTermLimit →
      handleLoginMsg st sid spawnOk =
        { state := st, spawnAttempted := false, reply := (sid, 1) }) ∧
    (st.ntty ≤ rttyTermLimit →
      (handleLoginMsg st sid spawnOk).state.ntty ≤ rttyTermLimit) ∧
    (∀ evs : List (String × Bool), (loginRun evs).ntty ≤ rttyTermLimit) := by
  refine ⟨?_, handleLoginMsg_ntty_le st sid spawnOk, ?_⟩
  · intro h
    unfold handleLoginMsg
    rw [if_pos h]
  · intro evs
    unfold loginRun
    have key : ∀ (l : List (String × Bool)) (s : LoginState), s.ntty ≤ rttyTermLimit →
        (l.foldl (fun st e => (handleLoginMsg st e.1 e.2).state) s).ntty ≤ rttyTermLimit := by
      intro l
      induction l with
      | nil => intro s hs; simpa using hs
      | cons e tl ih =>
        intro s hs
        simp only [List.foldl_cons]
        exact ih _ (handleLoginMsg_ntty_le s e.1 e.2 hs)
    exact key evs loginInit (by decide)

/-- C3 witness: the eleventh Login at a full table is rejected with
retCode 1 and changes nothing. -/
theorem login_cap_witness :
    handleLoginMsg { ntty := 10, sessions := [] } "s" true =
      { state := { ntty := 10, sessions := [] }, spawnAttempted := false,
        reply := ("s", 1) } :=
  (login_cap { ntty := 10, sessions := [] } "s" true).1 rfl

/-- Helper for C5: a 12-byte buffer carrying the magic head is consumed
by `detect` on every environment path. -/
theorem detect_consumed (ctx : FileCtx) (env : DetectEnv) (buf : List Nat)
    (h12 : buf.length = 12) (hm : isMagic buf) :
    (FileCtx.detect ctx env buf).1 = true := by
  obtain ⟨m0, m1, m2⟩ := hm
  unfold FileCtx.detect
  rw [if_neg (by omega)]
  rw [if_neg (by push_neg; exact ⟨m0, m1, m2⟩)]
  dsimp only
  repeat' split
  all_goals rfl

/-- Helper for C5: `detect` never produces a TermData frame. -/
theorem detect_no_termdata (ctx : FileCtx) (env : DetectEnv) (buf : List Nat) :
    ∀ o ∈ (FileCtx.detect ctx env buf).2.2, ∀ d, o ≠ Out.wireTermData d := by
  intro o ho d
  unfold FileCtx.detect at ho
  dsimp only at ho
  repeat' split at ho
  all_goals simp_all [sendCtl]
  all_goals
    rcases ho with h | h <;>
      first
        | (rcases h with ⟨h1, h2⟩; subst h2; simp)
        | (subst h; simp)

/-- C5 (confirmed): `TermSession.Write` forwards every buffer whose
length is not 12 or whose first three bytes are not `B6 BC BD` to the
broker verbatim as one TermData frame (state untouched); a buffer of
length exactly 12 whose first three bytes match is consumed — no
TermData frame is emitted — regardless of the direction byte and of the
outcome of every subsequent rendezvous step. -/
theorem magic_consume (ctx : FileCtx) (env : DetectEnv) (sid buf : List Nat) :
    (buf.length ≠ 12 ∨ ¬ isMagic buf →
      TermSession.Write ctx env sid buf = (ctx, [Out.wireTermData (sid ++ buf)])) ∧
    (buf.length = 12 → isMagic buf →
      ∀ o ∈ (TermSession.Write ctx env sid buf).2, ∀ d, o ≠ Out.wireTermData d) := by
  constructor
  · intro hor
    unfold TermSession.Write FileCtx.detect
    rcases hor with h | h
    · rw [if_pos h]
      simp
    · by_cases h12 : buf.length = 12
      · rw [if_neg (by omega)]
        rw [if_pos (by unfold isMagic at h; tauto)]
        simp
      · rw [if_pos h12]
        simp
  · intro h12 hm o ho d
    have hc := detect_consumed ctx env buf h12 hm
    have hshape := detect_no_termdata ctx env buf
    unfold TermSession.Write at ho
    rcases hdet : FileCtx.detect ctx env buf with ⟨c, ctx2, outs⟩
    rw [hdet] at ho hc
    simp only at hc
    subst hc
    simp only at ho
    have := hshape o (by rw [hdet]; simpa using ho) d
    exact this

/-- C5 witness: a 3-byte buffer is forwarded verbatim; the 12-byte
magic buffer `bufS` produces no TermData frame even though every
rendezvous step succeeds. -/
theorem magic_consume_witness :
    TermSession.Write fcInit envAllOk [7] [1, 2, 3] =
      (fcInit, [Out.wireTermData ([7] ++ [1, 2, 3])]) :=
  (magic_consume fcInit envAllOk [7] [1, 2, 3]).1 (Or.inl (by decide))

/-- C6 (counterexample): the FileData chunk that completes the download
(remain_size reaches 0) gets a Progress message and a reset but no
FileAck reply, though the claim requires a FileAck for every non-empty
FileData handled with the file open.  Here `ctxD` expects 5 more bytes
and receives exactly 5. -/
theorem filedata_final_chunk_no_ack :
    handleFileData ctxD true [104, 101, 108, 108, 111] =
      ({ fcInit with totalSize := 5 },
       [Out.fifoCtl MsgTypeFileCtlProgress [0, 0, 0, 0]]) ∧
    Out.wireFile MsgTypeFileAck [] ∉
      (handleFileData ctxD true [104, 101, 108, 108, 111]).2 := by
  decide

/-- C6 (amended): for every FileData with non-empty payload handled
while the target file is open, the handler appends the payload to the
file and decrements `remain_size` by the payload length (uint32); when
the Progress FIFO write succeeds it sends Progress carrying the current
(decremented) `remain_size`, and then replies FileAck on the wire iff
`remain_size` is still nonzero, resetting the context instead when it
reached 0; when the Progress write fails the context is reset and no
FileAck is sent; and a zero-byte FileData resets the context. -/
theorem filedata_progress (ctx : FileCtx) (ok : Bool) (payload contents : List Nat) :
    (ctx.file = some contents → payload ≠ [] → sendCtlOk ctx ok = true →
      u32sub ctx.remainSize payload.length ≠ 0 →
      handleFileData ctx ok payload =
        ({ ctx with file := some (contents ++ payload),
                    remainSize := u32sub ctx.remainSize payload.length },
         [Out.fifoCtl MsgTypeFileCtlProgress
            (le32 (u32sub ctx.remainSize payload.length)),
          Out.wireFile MsgTypeFileAck []])) ∧
    (ctx.file = some contents → payload ≠ [] → sendCtlOk ctx ok = true →
      u32sub ctx.remainSize payload.length = 0 →
      handleFileData ctx ok payload =
        (FileCtx.reset { ctx with file := some (contents ++ payload),
                                  remainSize := 0 },
         [Out.fifoCtl MsgTypeFileCtlProgress (le32 0)])) ∧
    (ctx.file = some contents → payload ≠ [] → sendCtlOk ctx ok = false →
      handleFileData ctx ok payload =
        (FileCtx.reset { ctx with file := some (contents ++ payload),
                                  remainSize := u32sub ctx.remainSize payload.length },
         [])) ∧
    (handleFileData ctx ok [] = (FileCtx.reset ctx, [])) := by
  refine ⟨?_, ?_, ?_, ?_⟩
  · intro h1 h2 h3 h4
    have hl : 0 < payload.length := List.length_pos.mpr h2
    rcases hfo : ctx.fifo with _ | f
    · simp [sendCtlOk, hfo] at h3
    · cases ok with
      | false => simp [sendCtlOk, hfo] at h3
      | true =>
        unfold handleFileData notifyProgress sendCtl sendCtlOk
        simp [h1, hfo, hl, h4]
  · intro h1 h2 h3 h4
    have hl : 0 < payload.length := List.length_pos.mpr h2
    rcases hfo : ctx.fifo with _ | f
    · simp [sendCtlOk, hfo] at h3
    · cases ok with
      | false => simp [sendCtlOk, hfo] at h3
      | true =>
        unfold handleFileData notifyProgress sendCtl sendCtlOk FileCtx.reset
        simp [h1, hfo, hl, h4]
  · intro h1 h2 h3
    have hl : 0 < payload.length := List.length_pos.mpr h2
    unfold handleFileData notifyProgress sendCtl sendCtlOk FileCtx.reset
    rcases hfo : ctx.fifo with _ | f
    · simp [h1, hfo, hl]
    · cases ok with
      | true => simp [sendCtlOk, hfo] at h3
      | false => simp [h1, hfo, hl]
  · unfold handleFileData
    simp

/-- C6 witness: a 2-byte chunk of a 5-byte download appends, decrements
remain to 3, delivers Progress(3) and replies FileAck. -/
theorem filedata_progress_witness :
    handleFileData ctxD true [104, 105] =
      ({ ctxD with file := some [104, 105], remainSize := 3 },
       [Out.fifoCtl MsgTypeFileCtlProgress (le32 3), Out.wireFile MsgTypeFileAck []]) :=
  (filedata_progress ctxD true [104, 105] []).1 (by decide) (by decide)
    (by decide) (by decide)

/-- C10 (confirmed): a non-empty FileData arriving while the context has
no open download file leaves the FileContext unchanged and produces no
output at all — nothing written, no FIFO message, no wire frame. -/
theorem filedata_no_open_file (ctx : FileCtx) (ok : Bool) (payload : List Nat)
    (h1 : ctx.file = none) (h2 : payload ≠ []) :
    handleFileData ctx ok payload = (ctx, []) := by
  unfold handleFileData
  rw [if_pos (List.length_pos.mpr h2)]
  simp [h1]

/-- C10 witness: a 1-byte FileData on a fresh context is a no-op. -/
theorem filedata_no_open_file_witness :
    handleFileData fcInit true [1] = (fcInit, []) :=
  filedata_no_open_file fcInit true [1] (by decide) (by decide)

/-- Helper for C7: `TermSession.Write` leaves the context `detect`
produced. -/
theorem write_state_eq (ctx : FileCtx) (env : DetectEnv) (sid buf : List Nat) :
    (TermSession.Write ctx env sid buf).1 = (FileCtx.detect ctx env buf).2.1 := by
  unfold TermSession.Write
  rcases FileCtx.detect ctx env buf with ⟨c, ctx2, outs⟩
  cases c <;> rfl

/-- Helper for C7: `detect` preserves "busy implies fifo open". -/
theorem detect_busy_fifo (ctx : FileCtx) (env : DetectEnv) (data : List Nat)
    (h : ctx.busy = true → ctx.fifo.isSome = true) :
    (FileCtx.detect ctx env data).2.1.busy = true →
    (FileCtx.detect ctx env data).2.1.fifo.isSome = true := by
  unfold FileCtx.detect
  dsimp only
  repeat' split
  all_goals intro hb
  all_goals simp_all

/-- Helper for C7: every FileContext event preserves "busy implies
fifo open". -/
theorem fcStep_busy_fifo (ctx : FileCtx) (e : FcEvent)
    (h : ctx.busy = true → ctx.fifo.isSome = true) :
    (fcStep ctx e).1.busy = true → (fcStep ctx e).1.fifo.isSome = true := by
  cases e with
  | write env sid buf =>
    unfold fcStep
    rw [write_state_eq]
    exact detect_busy_fifo ctx env buf h
  | info env p =>
    unfold fcStep FileCtx.startDownload FileCtx.reset
    dsimp only
    repeat' split
    all_goals intro hb
    all_goals simp_all
  | fdata ok p =>
    unfold fcStep handleFileData notifyProgress sendCtl sendCtlOk FileCtx.reset
    dsimp only
    repeat' split
    all_goals intro hb
    all_goals simp_all
  | fack env =>
    unfold fcStep FileCtx.sendData notifyProgress sendCtl sendCtlOk FileCtx.reset
    dsimp only
    repeat' split
    all_goals intro hb
    all_goals simp_all
  | fabort ok =>
    unfold fcStep FileCtx.reset
    intro hb
    simp_all
  | close =>
    unfold fcStep FileCtx.reset
    intro hb
    simp_all

/-- C7 (counterexample): after a successful `'S'` (upload) detection the
context is busy with BOTH the file and the fifo handle non-null, so
"busy iff exactly one handle is non-null" fails in a normal flow. -/
theorem fc_busy_both_handles :
    (fcRun [FcEvent.write envAllOk [] bufS]).busy = true ∧
    (fcRun [FcEvent.write envAllOk [] bufS]).file.isSome = true ∧
    (fcRun [FcEvent.write envAllOk [] bufS]).fifo.isSome = true ∧
    exactlyOneHandle (fcRun [FcEvent.write envAllOk [] bufS]) = false := by
  decide

/-- C7 (amended): over every event history from a fresh context, a busy
FileContext always has a non-null fifo handle (during an active transfer
the file handle may be non-null as well); and `reset` always leaves the
context not busy with both nullable handles null. -/
theorem fc_invariant :
    (∀ es, (fcRun es).busy = true → (fcRun es).fifo.isSome = true) ∧
    (∀ ctx : FileCtx, (FileCtx.reset ctx).busy = false ∧
      (FileCtx.reset ctx).file = none ∧ (FileCtx.reset ctx).fifo = none) := by
  constructor
  · intro es
    unfold fcRun
    have key : ∀ (l : List FcEvent) (c : FileCtx),
        (c.busy = true → c.fifo.isSome = true) →
        ((l.foldl (fun c e => (fcStep c e).1) c).busy = true →
          (l.foldl (fun c e => (fcStep c e).1) c).fifo.isSome = true) := by
      intro l
      induction l with
      | nil => intro c hc; simpa using hc
      | cons e tl ih =>
        intro c hc
        simp only [List.foldl_cons]
        exact ih _ (fcStep_busy_fifo c e hc)
    exact key es fcInit (by simp [fcInit])
  · intro ctx
    unfold FileCtx.reset
    exact ⟨rfl, rfl, rfl⟩

/-- C7 witness: after a successful `'R'` detection the context is busy,
and the invariant yields its fifo handle open. -/
theorem fc_invariant_witness :
    (fcRun [FcEvent.write envAllOk [] bufR]).fifo.isSome = true :=
  fc_invariant.1 [FcEvent.write envAllOk [] bufR] (by decide)

/-- C8 (code bug, evaluated): an Http frame with a fresh key whose
target dial fails does emit the empty Http frame with the same key, but
the key remains stored in the tunnel map: the goroutine returns before
the deferred `httpCons.Delete` is registered, so the entry is never
removed, contradicting the spec's "`http_tunnels[K]` is absent
afterward". -/
theorem http_dial_fail_key_leak :
    handleHttpMsg [] httpFrame8 false = ([k8], [Out.wireHttp k8 []]) ∧
    k8 ∈ (handleHttpMsg [] httpFrame8 false).1 := by
  decide

/-- C9 (counterexample): a Winsize frame for an existing session whose
`SetWinSize` ioctl fails makes the handler return an error and the
dispatch loop exit, although the frame decoded fine and no heartbeat
timed out — refuting "only codec errors and heartbeat timeout cause the
loop to exit". -/
theorem winsize_error_exits_loop :
    msgHandlerKnown MsgTypeWinsize = true ∧
    dispatchContinue MsgTypeWinsize st0 data0 envNoResize = false := by
  decide

/-- C9 (amended): the dispatch loop exits on a successfully decoded
frame exactly when the type is absent from the handler table or when the
handler returns an error, which only the Winsize handler can do — for an
existing session whose resize fails; every handler other than Winsize
returns nil on every path, so every other subsystem error is localized. -/
theorem dispatch_exit_policy (typ : Nat) (st : DispatchState) (data : List Nat)
    (env : DispatchEnv) :
    (dispatchContinue typ st data env = false ↔
      (msgHandlerKnown typ = false ∨
       (typ = MsgTypeWinsize ∧ data.take 32 ∈ st.sessions ∧ env.resizeOk = false))) ∧
    (typ ≠ MsgTypeWinsize → handlerError typ st data env = none) := by
  constructor
  · unfold dispatchContinue handlerError handleTermWinsizeMsgErr
    by_cases hw : typ = MsgTypeWinsize
    · subst hw
      have hk : msgHandlerKnown MsgTypeWinsize = true := by decide
      rw [hk]
      by_cases hmem : data.take 32 ∈ st.sessions
      · by_cases hr : env.resizeOk
        · simp [hmem, hr]
        · simp [hmem, hr, hk]
      · simp [hmem, hk]
    · by_cases hk : msgHandlerKnown typ
      · simp [hw, hk]
      · simp [hw, hk, Bool.not_eq_true] at *
  · intro hw
    unfold handlerError
    rw [if_neg hw]

/-- C9 witness: a File frame's handler never returns an error, so its
subsystem errors cannot terminate the loop. -/
theorem dispatch_exit_policy_witness :
    handlerError MsgTypeFile st0 data0 envNoResize = none :=
  (dispatch_exit_policy MsgTypeFile st0 data0 envNoResize).2 (by decide)

end Rtty
